import Mathlib

/-!
Verification development for the indoor-scene composition driver
(infinigen_examples/generate_indoors.py).

The Python source is shallowly embedded:
* the constraint-domain algebra (tag sets, relation clauses, the
  combinators with_relation / with_tags) and the stage catalog builder
  default_greedy_stages are translated directly from the source;
* the semantic pieces that live outside the provided source file
  (the tag constants of infinigen_examples.util.constraint_util, the
  matching semantics of reasoning.Domain, the stage executor
  pipeline.RandomStageExecutor) are modelled from the specification,
  as marked in their doc comments;
* compose_indoors is embedded as a trace function: it returns the list
  of observable events (stage invocations, catalog validation, solver
  construction, snapshot writes, top-level aborts) in execution order.
-/

namespace Infinigen

/-- Semantic and subpart tags used by the embedded fragment of the program.
Room / Object and the five room types appear literally in the source;
the support-surface tags model the tag constants of constraint_util,
which is outside the provided source (see the cu namespace below). -/
inductive Tag where
  | Room | Object
  | VarRoom | VarObj
  | Bedroom | LivingRoom | Kitchen | Bathroom | DiningRoom
  | Table | Surface
  | FloorSupport | WallSupport | CeilingSupport | SideSupport
  | BottomSubpart | TopSurface | ObjSupportSurface
deriving DecidableEq, Repr

/-- A relation predicate of the constraint language: either AnyRelation
or StableAgainst with a child tag set and a parent tag set. -/
inductive RelSpec where
  | anyRel
  | stableAgainst (child : List Tag) (parent : List Tag)
deriving DecidableEq, Repr

namespace cu

/-- Modelled from the spec: tag set naming the floor-support relation
(cu.floortags of constraint_util, not part of the provided source). -/
def floortags : List Tag := [Tag.FloorSupport]

/-- Modelled from the spec: tag set naming the wall-support relation. -/
def walltags : List Tag := [Tag.WallSupport]

/-- Modelled from the spec: tag set naming the ceiling-support relation. -/
def ceilingtags : List Tag := [Tag.CeilingSupport]

/-- Modelled from the spec: tag set naming the lateral-attachment relation
(cu.side of constraint_util). -/
def side : List Tag := [Tag.SideSupport]

/-- Modelled from the spec: the room VariableTag (cu.variable_room). -/
def variable_room : List Tag := [Tag.VarRoom]

/-- Modelled from the spec: the object VariableTag (cu.variable_obj). -/
def variable_obj : List Tag := [Tag.VarObj]

/-- Modelled from the spec: the relation for objects stacked directly on
top of another object (cu.ontop of constraint_util). -/
def ontop : RelSpec := RelSpec.stableAgainst [Tag.BottomSubpart] [Tag.TopSurface]

/-- Modelled from the spec: the generic object-support relation
(cu.on of constraint_util; named onRel here because on is a reserved
word in Lean). -/
def onRel : RelSpec := RelSpec.stableAgainst [Tag.BottomSubpart] [Tag.ObjSupportSurface]

end cu

/-- A Domain of the reasoning algebra: required tags, excluded tags, and a
list of relation clauses.  A clause (b, r, d) requires (b = true) or
forbids (b = false) a relation satisfying predicate r to some entity
matching the target domain d.  The source writes required and excluded
tags as one signed set; they are split into two lists here. -/
inductive Domain where
  | mk (pos : List Tag) (neg : List Tag) (rels : List (Bool × RelSpec × Domain))

/-- The with_relation combinator: returns a new Domain with one more
relation clause, positive or negated.  The source spells a negated
clause as with_relation applied to a negated relation. -/
def Domain.with_relation (d : Domain) (positive : Bool) (r : RelSpec) (target : Domain) : Domain :=
  match d with
  | .mk pos neg rels => .mk pos neg (rels ++ [(positive, r, target)])

/-- The with_tags combinator: returns a new Domain with additional
required tags. -/
def Domain.with_tags (d : Domain) (tags : List Tag) : Domain :=
  match d with
  | .mk pos neg rels => .mk (pos ++ tags) neg rels

/-- Translation of default_greedy_stages (generate_indoors.py lines 87-131):
the ordered catalog of greedy stages, built with the same intermediate
domains (all_room, all_obj, all_obj_in_room, primary, secondary, nonside)
and the same relation predicates as the source. -/
def default_greedy_stages : List (String × Domain) :=
  let on_floor := RelSpec.stableAgainst [] cu.floortags
  let on_wall := RelSpec.stableAgainst [] cu.walltags
  let on_ceiling := RelSpec.stableAgainst [] cu.ceilingtags
  let side := RelSpec.stableAgainst [] cu.side
  let all_room := Domain.mk [Tag.Room] [Tag.Object] []
  let all_obj := Domain.mk [Tag.Object] [Tag.Room] []
  let all_obj_in_room := all_obj.with_relation true RelSpec.anyRel (all_room.with_tags cu.variable_room)
  let primary := all_obj_in_room.with_relation false RelSpec.anyRel all_obj
  let secondary := all_obj.with_relation true RelSpec.anyRel (primary.with_tags cu.variable_obj)
  let nonside := secondary.with_relation false side all_obj
  [ ("rooms", all_room),
    ("on_floor", primary.with_relation true on_floor all_room),
    ("on_wall", ((primary.with_relation false on_floor all_room).with_relation false on_ceiling all_room).with_relation true on_wall all_room),
    ("on_ceiling", ((primary.with_relation false on_floor all_room).with_relation true on_ceiling all_room).with_relation false on_wall all_room),
    ("side_obj", secondary.with_relation true side all_obj),
    ("obj_ontop_obj", (nonside.with_relation true cu.ontop all_obj).with_relation false cu.onRel all_obj),
    ("obj_on_support", (nonside.with_relation true cu.onRel all_obj).with_relation false cu.ontop all_obj) ]

/-- The domain registered in the catalog under a given stage name
(the empty domain if the name is absent). -/
def stageDomain (n : String) : Domain :=
  ((default_greedy_stages.find? (fun p => p.1 == n)).map Prod.snd).getD (Domain.mk [] [] [])

/-- A concrete relation instance held by a placed entity: the relation
predicate it instantiates and the key of the related entity. -/
structure RelInstance where
  spec : RelSpec
  target : Nat
deriving DecidableEq, Repr

/-- A placed entity of the scene state: its semantic tags and its
relation instances to other entities. -/
structure Entity where
  tags : List Tag
  rels : List RelInstance
deriving DecidableEq, Repr

/-- The scene state as an association list from entity key to entity. -/
def SceneState := List (Nat × Entity)

/-- Key lookup in a scene state. -/
def SceneState.find : SceneState → Nat → Option Entity
  | [], _ => none
  | (k, e) :: rest, q => if k = q then some e else SceneState.find rest q

/-- Modelled from the spec: whether a concrete relation instance satisfies
a relation predicate.  AnyRelation accepts every instance; StableAgainst
accepts exactly the instances of the same predicate.  The matching
semantics of reasoning.Domain is not part of the provided source. -/
def relMatches : RelSpec → RelSpec → Bool
  | .anyRel, _ => true
  | .stableAgainst c p, .stableAgainst c2 p2 => c == c2 && p == p2
  | .stableAgainst _ _, .anyRel => false

mutual

/-- Modelled from the spec: whether the entity at key k matches a Domain
in a scene state.  All required tags must be present, no excluded tag may
be present, and every relation clause must be satisfied: a positive
clause demands some relation instance satisfying the predicate whose
target matches the clause target domain, a negated clause forbids one. -/
def Domain.matches (st : SceneState) : Domain → Nat → Bool
  | .mk pos neg rels, k =>
    match st.find k with
    | none => false
    | some e =>
      pos.all (fun t => e.tags.contains t) &&
      neg.all (fun t => !(e.tags.contains t)) &&
      clausesSat st e rels

/-- Conjunction of a list of relation clauses for one entity. -/
def clausesSat (st : SceneState) (e : Entity) : List (Bool × RelSpec × Domain) → Bool
  | [] => true
  | (b, r, d) :: rest => (relAny st r d e.rels == b) && clausesSat st e rest

/-- Whether some relation instance in a list satisfies the predicate with
a target matching the given domain. -/
def relAny (st : SceneState) (r : RelSpec) (d : Domain) : List RelInstance → Bool
  | [] => false
  | ri :: rest => (relMatches r ri.spec && Domain.matches st d ri.target) || relAny st r d rest

end

/-! Spec-side predicates, written from the words of the claims: room
entities, primary objects (objects related to a room bound by the room
variable and not related to any other object), secondary objects
(objects related to a primary object bound by the object variable), and
support relations to rooms or to objects. -/

/-- Spec-side: k is a room entity (tagged Room and not Object). -/
def isRoomEntity (st : SceneState) (k : Nat) : Bool :=
  match st.find k with
  | none => false
  | some e => e.tags.contains Tag.Room && !(e.tags.contains Tag.Object)

/-- Spec-side: k is an object entity (tagged Object and not Room). -/
def isObjEntity (st : SceneState) (k : Nat) : Bool :=
  match st.find k with
  | none => false
  | some e => e.tags.contains Tag.Object && !(e.tags.contains Tag.Room)

/-- Spec-side: k is a room entity carrying the room VariableTag. -/
def isVarRoomEntity (st : SceneState) (k : Nat) : Bool :=
  match st.find k with
  | none => false
  | some e => e.tags.contains Tag.Room && e.tags.contains Tag.VarRoom
      && !(e.tags.contains Tag.Object)

/-- Spec-side: the entity at k carries tag t. -/
def hasTag (st : SceneState) (k : Nat) (t : Tag) : Bool :=
  match st.find k with
  | none => false
  | some e => e.tags.contains t

/-- Spec-side: the entity at k has a relation instance satisfying
predicate r whose target satisfies targetB. -/
def hasRelVia (st : SceneState) (k : Nat) (r : RelSpec) (targetB : Nat → Bool) : Bool :=
  match st.find k with
  | none => false
  | some e => e.rels.any (fun ri => relMatches r ri.spec && targetB ri.target)

/-- Spec-side: k is a primary object, an object related to a room bound
by the room variable and not related to any other object. -/
def isPrimaryObj (st : SceneState) (k : Nat) : Bool :=
  isObjEntity st k && hasRelVia st k RelSpec.anyRel (isVarRoomEntity st)
    && !(hasRelVia st k RelSpec.anyRel (isObjEntity st))

/-- Spec-side: k is a primary object carrying the object VariableTag. -/
def isPrimaryVarObj (st : SceneState) (k : Nat) : Bool :=
  hasTag st k Tag.VarObj && isPrimaryObj st k

/-- Spec-side: k is a secondary object, an object related to a primary
object bound by the object variable. -/
def isSecondaryObj (st : SceneState) (k : Nat) : Bool :=
  isObjEntity st k && hasRelVia st k RelSpec.anyRel (isPrimaryVarObj st)

/-- Spec-side: k has a support relation of the given tag set to a room
entity. -/
def hasSupportToRoom (st : SceneState) (k : Nat) (tags : List Tag) : Bool :=
  hasRelVia st k (RelSpec.stableAgainst [] tags) (isRoomEntity st)

/-- Spec-side: k is related via predicate r to some object entity. -/
def hasRelToObj (st : SceneState) (k : Nat) (r : RelSpec) : Bool :=
  hasRelVia st k r (isObjEntity st)

/-- The lateral-attachment relation predicate as built in the source
(StableAgainst of the side tag set). -/
def sideRel : RelSpec := RelSpec.stableAgainst [] cu.side

/-! Characterization lemmas: the catalog domains match exactly the
spec-side predicates. -/

theorem relAny_eq_any (st : SceneState) (r : RelSpec) (d : Domain) (l : List RelInstance) :
    relAny st r d l = l.any (fun ri => relMatches r ri.spec && Domain.matches st d ri.target) := by
  induction l with
  | nil => rw [relAny]; rfl
  | cons ri rest ih => rw [relAny, ih]; rfl

theorem matches_all_room (st : SceneState) (k : Nat) :
    Domain.matches st (Domain.mk [Tag.Room] [Tag.Object] []) k = isRoomEntity st k := by
  rw [Domain.matches, isRoomEntity]
  cases h : st.find k <;> simp [clausesSat]

theorem matches_all_obj (st : SceneState) (k : Nat) :
    Domain.matches st (Domain.mk [Tag.Object] [Tag.Room] []) k = isObjEntity st k := by
  rw [Domain.matches, isObjEntity]
  cases h : st.find k <;> simp [clausesSat]

theorem matches_var_room (st : SceneState) (k : Nat) :
    Domain.matches st (Domain.mk [Tag.Room, Tag.VarRoom] [Tag.Object] []) k
      = isVarRoomEntity st k := by
  rw [Domain.matches, isVarRoomEntity]
  cases h : st.find k <;> simp [clausesSat, Bool.and_assoc]

theorem matches_primary (st : SceneState) (k : Nat) :
    Domain.matches st (Domain.mk [Tag.Object] [Tag.Room]
      [(true, RelSpec.anyRel, Domain.mk [Tag.Room, Tag.VarRoom] [Tag.Object] []),
       (false, RelSpec.anyRel, Domain.mk [Tag.Object] [Tag.Room] [])]) k
      = isPrimaryObj st k := by
  rw [Domain.matches, isPrimaryObj, isObjEntity]
  cases h : st.find k
  · simp [hasRelVia, h]
  · simp [clausesSat, relAny_eq_any, matches_var_room, matches_all_obj, relMatches,
      hasRelVia, h, Bool.and_assoc]

theorem matches_primary_var (st : SceneState) (k : Nat) :
    Domain.matches st (Domain.mk [Tag.Object, Tag.VarObj] [Tag.Room]
      [(true, RelSpec.anyRel, Domain.mk [Tag.Room, Tag.VarRoom] [Tag.Object] []),
       (false, RelSpec.anyRel, Domain.mk [Tag.Object] [Tag.Room] [])]) k
      = isPrimaryVarObj st k := by
  rw [Domain.matches, isPrimaryVarObj, isPrimaryObj, isObjEntity, hasTag]
  cases h : st.find k
  · simp [hasRelVia, h]
  · simp [clausesSat, relAny_eq_any, matches_var_room, matches_all_obj, relMatches,
      hasRelVia, h, Bool.and_assoc]
    rw [Bool.and_left_comm]

theorem matches_secondary (st : SceneState) (k : Nat) :
    Domain.matches st (Domain.mk [Tag.Object] [Tag.Room]
      [(true, RelSpec.anyRel, Domain.mk [Tag.Object, Tag.VarObj] [Tag.Room]
        [(true, RelSpec.anyRel, Domain.mk [Tag.Room, Tag.VarRoom] [Tag.Object] []),
         (false, RelSpec.anyRel, Domain.mk [Tag.Object] [Tag.Room] [])])]) k
      = isSecondaryObj st k := by
  rw [Domain.matches, isSecondaryObj, isObjEntity]
  cases h : st.find k
  · simp [hasRelVia, h]
  · simp [clausesSat, relAny_eq_any, matches_primary_var, relMatches,
      hasRelVia, h, Bool.and_assoc]

theorem stage_rooms_matches (st : SceneState) (k : Nat) :
    Domain.matches st (stageDomain "rooms") k = isRoomEntity st k := by
  have hd : stageDomain "rooms" = Domain.mk [Tag.Room] [Tag.Object] [] := rfl
  rw [hd, matches_all_room]

theorem stage_on_floor_matches (st : SceneState) (k : Nat) :
    Domain.matches st (stageDomain "on_floor") k
      = (isPrimaryObj st k && hasSupportToRoom st k cu.floortags) := by
  have hd : stageDomain "on_floor" = Domain.mk [Tag.Object] [Tag.Room]
      [(true, RelSpec.anyRel, Domain.mk [Tag.Room, Tag.VarRoom] [Tag.Object] []),
       (false, RelSpec.anyRel, Domain.mk [Tag.Object] [Tag.Room] []),
       (true, RelSpec.stableAgainst [] cu.floortags, Domain.mk [Tag.Room] [Tag.Object] [])] := rfl
  rw [hd, Domain.matches, isPrimaryObj, isObjEntity, hasSupportToRoom]
  cases h : st.find k
  · simp [hasRelVia, h]
  · simp [clausesSat, relAny_eq_any, matches_var_room, matches_all_obj, matches_all_room,
      relMatches, hasRelVia, h, Bool.and_assoc]

theorem stage_on_wall_matches (st : SceneState) (k : Nat) :
    Domain.matches st (stageDomain "on_wall") k
      = (isPrimaryObj st k && !hasSupportToRoom st k cu.floortags
          && !hasSupportToRoom st k cu.ceilingtags && hasSupportToRoom st k cu.walltags) := by
  have hd : stageDomain "on_wall" = Domain.mk [Tag.Object] [Tag.Room]
      [(true, RelSpec.anyRel, Domain.mk [Tag.Room, Tag.VarRoom] [Tag.Object] []),
       (false, RelSpec.anyRel, Domain.mk [Tag.Object] [Tag.Room] []),
       (false, RelSpec.stableAgainst [] cu.floortags, Domain.mk [Tag.Room] [Tag.Object] []),
       (false, RelSpec.stableAgainst [] cu.ceilingtags, Domain.mk [Tag.Room] [Tag.Object] []),
       (true, RelSpec.stableAgainst [] cu.walltags, Domain.mk [Tag.Room] [Tag.Object] [])] := rfl
  rw [hd, Domain.matches, isPrimaryObj, isObjEntity, hasSupportToRoom, hasSupportToRoom,
    hasSupportToRoom]
  cases h : st.find k
  · simp [hasRelVia, h]
  · simp [clausesSat, relAny_eq_any, matches_var_room, matches_all_obj, matches_all_room,
      relMatches, hasRelVia, h, Bool.and_assoc]

theorem stage_on_ceiling_matches (st : SceneState) (k : Nat) :
    Domain.matches st (stageDomain "on_ceiling") k
      = (isPrimaryObj st k && !hasSupportToRoom st k cu.floortags
          && hasSupportToRoom st k cu.ceilingtags && !hasSupportToRoom st k cu.walltags) := by
  have hd : stageDomain "on_ceiling" = Domain.mk [Tag.Object] [Tag.Room]
      [(true, RelSpec.anyRel, Domain.mk [Tag.Room, Tag.VarRoom] [Tag.Object] []),
       (false, RelSpec.anyRel, Domain.mk [Tag.Object] [Tag.Room] []),
       (false, RelSpec.stableAgainst [] cu.floortags, Domain.mk [Tag.Room] [Tag.Object] []),
       (true, RelSpec.stableAgainst [] cu.ceilingtags, Domain.mk [Tag.Room] [Tag.Object] []),
       (false, RelSpec.stableAgainst [] cu.walltags, Domain.mk [Tag.Room] [Tag.Object] [])] := rfl
  rw [hd, Domain.matches, isPrimaryObj, isObjEntity, hasSupportToRoom, hasSupportToRoom,
    hasSupportToRoom]
  cases h : st.find k
  · simp [hasRelVia, h]
  · simp [clausesSat, relAny_eq_any, matches_var_room, matches_all_obj, matches_all_room,
      relMatches, hasRelVia, h, Bool.and_assoc]

theorem stage_side_obj_matches (st : SceneState) (k : Nat) :
    Domain.matches st (stageDomain "side_obj") k
      = (isSecondaryObj st k && hasRelToObj st k sideRel) := by
  have hd : stageDomain "side_obj" = Domain.mk [Tag.Object] [Tag.Room]
      [(true, RelSpec.anyRel, Domain.mk [Tag.Object, Tag.VarObj] [Tag.Room]
        [(true, RelSpec.anyRel, Domain.mk [Tag.Room, Tag.VarRoom] [Tag.Object] []),
         (false, RelSpec.anyRel, Domain.mk [Tag.Object] [Tag.Room] [])]),
       (true, sideRel, Domain.mk [Tag.Object] [Tag.Room] [])] := rfl
  rw [hd, Domain.matches, isSecondaryObj, isObjEntity, hasRelToObj]
  cases h : st.find k
  · simp [hasRelVia, h]
  · simp [clausesSat, relAny_eq_any, matches_primary_var, matches_all_obj,
      relMatches, hasRelVia, h, Bool.and_assoc]

theorem stage_obj_ontop_obj_matches (st : SceneState) (k : Nat) :
    Domain.matches st (stageDomain "obj_ontop_obj") k
      = (isSecondaryObj st k && !hasRelToObj st k sideRel
          && hasRelToObj st k cu.ontop && !hasRelToObj st k cu.onRel) := by
  have hd : stageDomain "obj_ontop_obj" = Domain.mk [Tag.Object] [Tag.Room]
      [(true, RelSpec.anyRel, Domain.mk [Tag.Object, Tag.VarObj] [Tag.Room]
        [(true, RelSpec.anyRel, Domain.mk [Tag.Room, Tag.VarRoom] [Tag.Object] []),
         (false, RelSpec.anyRel, Domain.mk [Tag.Object] [Tag.Room] [])]),
       (false, sideRel, Domain.mk [Tag.Object] [Tag.Room] []),
       (true, cu.ontop, Domain.mk [Tag.Object] [Tag.Room] []),
       (false, cu.onRel, Domain.mk [Tag.Object] [Tag.Room] [])] := rfl
  rw [hd, Domain.matches, isSecondaryObj, isObjEntity, hasRelToObj, hasRelToObj, hasRelToObj]
  cases h : st.find k
  · simp [hasRelVia, h]
  · simp [clausesSat, relAny_eq_any, matches_primary_var, matches_all_obj,
      relMatches, hasRelVia, h, Bool.and_assoc]

theorem stage_obj_on_support_matches (st : SceneState) (k : Nat) :
    Domain.matches st (stageDomain "obj_on_support") k
      = (isSecondaryObj st k && !hasRelToObj st k sideRel
          && hasRelToObj st k cu.onRel && !hasRelToObj st k cu.ontop) := by
  have hd : stageDomain "obj_on_support" = Domain.mk [Tag.Object] [Tag.Room]
      [(true, RelSpec.anyRel, Domain.mk [Tag.Object, Tag.VarObj] [Tag.Room]
        [(true, RelSpec.anyRel, Domain.mk [Tag.Room, Tag.VarRoom] [Tag.Object] []),
         (false, RelSpec.anyRel, Domain.mk [Tag.Object] [Tag.Room] [])]),
       (false, sideRel, Domain.mk [Tag.Object] [Tag.Room] []),
       (true, cu.onRel, Domain.mk [Tag.Object] [Tag.Room] []),
       (false, cu.ontop, Domain.mk [Tag.Object] [Tag.Room] [])] := rfl
  rw [hd, Domain.matches, isSecondaryObj, isObjEntity, hasRelToObj, hasRelToObj, hasRelToObj]
  cases h : st.find k
  · simp [hasRelVia, h]
  · simp [clausesSat, relAny_eq_any, matches_primary_var, matches_all_obj,
      relMatches, hasRelVia, h, Bool.and_assoc]

/-- C1: default_greedy_stages returns exactly the seven named stages in
the fixed order rooms, on_floor, on_wall, on_ceiling, side_obj,
obj_ontop_obj, obj_on_support; the rooms stage matches exactly the room
entities; on_floor, on_wall and on_ceiling match primary objects
(objects related to a room bound by the room variable and not related to
any other object) via the corresponding support relation (with the
negated clauses of the later stages); and the last three stages match
secondary objects (objects related to a primary object bound by the
object variable) via the side, ontop and on relations respectively. -/
theorem C1_catalog_stages :
    default_greedy_stages.map Prod.fst =
      ["rooms", "on_floor", "on_wall", "on_ceiling", "side_obj", "obj_ontop_obj",
       "obj_on_support"] ∧
    (∀ st k, Domain.matches st (stageDomain "rooms") k = isRoomEntity st k) ∧
    (∀ st k, Domain.matches st (stageDomain "on_floor") k
      = (isPrimaryObj st k && hasSupportToRoom st k cu.floortags)) ∧
    (∀ st k, Domain.matches st (stageDomain "on_wall") k
      = (isPrimaryObj st k && !hasSupportToRoom st k cu.floortags
          && !hasSupportToRoom st k cu.ceilingtags && hasSupportToRoom st k cu.walltags)) ∧
    (∀ st k, Domain.matches st (stageDomain "on_ceiling") k
      = (isPrimaryObj st k && !hasSupportToRoom st k cu.floortags
          && hasSupportToRoom st k cu.ceilingtags && !hasSupportToRoom st k cu.walltags)) ∧
    (∀ st k, Domain.matches st (stageDomain "side_obj") k
      = (isSecondaryObj st k && hasRelToObj st k sideRel)) ∧
    (∀ st k, Domain.matches st (stageDomain "obj_ontop_obj") k
      = (isSecondaryObj st k && !hasRelToObj st k sideRel
          && hasRelToObj st k cu.ontop && !hasRelToObj st k cu.onRel)) ∧
    (∀ st k, Domain.matches st (stageDomain "obj_on_support") k
      = (isSecondaryObj st k && !hasRelToObj st k sideRel
          && hasRelToObj st k cu.onRel && !hasRelToObj st k cu.ontop)) :=
  ⟨rfl, stage_rooms_matches, stage_on_floor_matches, stage_on_wall_matches,
    stage_on_ceiling_matches, stage_side_obj_matches, stage_obj_ontop_obj_matches,
    stage_obj_on_support_matches⟩

/-- C2: the positive relation clauses of the catalog stages are mutually
exclusive: no entity can match both on_floor and on_wall, both on_floor
and on_ceiling, or both on_wall and on_ceiling (the negated support
clauses of the later stages contradict the positive clause of the
earlier one); and among the secondary stages, side_obj, obj_ontop_obj
and obj_on_support have pairwise disjoint matching sets (obj_ontop_obj
excludes the on relation, obj_on_support excludes the ontop relation,
and both exclude the side relation). -/
theorem C2_stage_domains_disjoint : ∀ st k,
    (Domain.matches st (stageDomain "on_floor") k
      && Domain.matches st (stageDomain "on_wall") k) = false ∧
    (Domain.matches st (stageDomain "on_floor") k
      && Domain.matches st (stageDomain "on_ceiling") k) = false ∧
    (Domain.matches st (stageDomain "on_wall") k
      && Domain.matches st (stageDomain "on_ceiling") k) = false ∧
    (Domain.matches st (stageDomain "side_obj") k
      && Domain.matches st (stageDomain "obj_ontop_obj") k) = false ∧
    (Domain.matches st (stageDomain "side_obj") k
      && Domain.matches st (stageDomain "obj_on_support") k) = false ∧
    (Domain.matches st (stageDomain "obj_ontop_obj") k
      && Domain.matches st (stageDomain "obj_on_support") k) = false := by
  intro st k
  refine ⟨?_, ?_, ?_, ?_, ?_, ?_⟩
  · rw [stage_on_floor_matches, stage_on_wall_matches]
    cases hasSupportToRoom st k cu.floortags <;> simp
  · rw [stage_on_floor_matches, stage_on_ceiling_matches]
    cases hasSupportToRoom st k cu.floortags <;> simp
  · rw [stage_on_wall_matches, stage_on_ceiling_matches]
    cases hasSupportToRoom st k cu.ceilingtags <;> simp
  · rw [stage_side_obj_matches, stage_obj_ontop_obj_matches]
    cases hasRelToObj st k sideRel <;> simp
  · rw [stage_side_obj_matches, stage_obj_on_support_matches]
    cases hasRelToObj st k sideRel <;> simp
  · rw [stage_obj_ontop_obj_matches, stage_obj_on_support_matches]
    cases hasRelToObj st k cu.ontop <;> simp

/-! Embedding of compose_indoors (generate_indoors.py lines 136-452).

The overrides dict is embedded as a structure of Option fields, one per
recognized key: a field holds none exactly when the key is absent from
the mapping.  Direct subscripting of an absent key raises KeyError;
dict.get reads with a default. -/

/-- A Python exception, as far as the embedded fragment raises them. -/
inductive PyErr where
  | keyError (key : String)
  | nameError (missing : String)
  | attributeError (missing : String)
deriving DecidableEq, Repr

/-- The recognized override keys of compose_indoors.  A field is none
exactly when the key is absent from the overrides mapping. -/
structure Overrides where
  solve_steps_large : Option Nat
  solve_steps_medium : Option Nat
  solve_steps_small : Option Nat
  abort_unsatisfied_large : Option Bool
  abort_unsatisfied_medium : Option Bool
  abort_unsatisfied_small : Option Bool
  restrict_single_supported_roomtype : Option Bool
  topview : Option Bool
  alpha_walls : Option Int
  topview_rot_x : Option Int
  topview_rot_z : Option Int
deriving DecidableEq, Repr

/-- A variable assignment produced by the greedy enumerator: a binding
from variable tags to entity keys.  Its content is irrelevant to the
embedded claims; only the number of assignments matters. -/
abbrev Assignment := List (Tag × Nat)

/-- One call to solver.solve_objects, recording the arguments the driver
passes: the per-assignment description, the step budget, and the
abort-on-unsatisfied flag. -/
structure SolveCall where
  desc : String
  nSteps : Nat
  abortUnsatisfied : Bool
deriving DecidableEq, Repr

/-- The loop body of solve_large (lines 189-197): each iteration reads
overrides with direct subscripting of solve_steps_large (KeyError when
absent) and passes abort_unsatisfied read from the overrides with
default False.  The subscript expression sits inside the loop, so with
zero assignments it is never evaluated. -/
def solveLargeLoop (ov : Overrides) : Nat → List Assignment → Except PyErr (List SolveCall)
  | _, [] => Except.ok []
  | i, _ :: rest =>
    match ov.solve_steps_large with
    | none => Except.error (PyErr.keyError "solve_steps_large")
    | some n =>
      match solveLargeLoop ov (i + 1) rest with
      | Except.error e => Except.error e
      | Except.ok calls =>
        Except.ok ({ desc := "on_floor_" ++ toString i,
                     nSteps := n,
                     abortUnsatisfied := ov.abort_unsatisfied_large.getD false } :: calls)

/-- Translation of solve_large (lines 185-198): iterate the enumerated
assignments and call solve_objects for each. -/
def solve_large (ov : Overrides) (assignments : List Assignment) :
    Except PyErr (List SolveCall) :=
  solveLargeLoop ov 0 assignments

/-- Translation of solve_medium (lines 326-334): n_steps is read by
direct subscripting before the loops, and solve_objects is called
positionally without an abort_unsatisfied argument, so the solver
default False applies (contract of solve_objects, spec section 4.4). -/
def solve_medium (ov : Overrides)
    (wallAssignments ceilingAssignments sideAssignments : List Assignment) :
    Except PyErr (List SolveCall) :=
  match ov.solve_steps_medium with
  | none => Except.error (PyErr.keyError "solve_steps_medium")
  | some n =>
    Except.ok
      ((wallAssignments.enum.map fun p =>
          { desc := "on_wall_" ++ toString p.fst, nSteps := n, abortUnsatisfied := false }) ++
       (ceilingAssignments.enum.map fun p =>
          { desc := "on_ceiling_" ++ toString p.fst, nSteps := n, abortUnsatisfied := false }) ++
       (sideAssignments.enum.map fun p =>
          { desc := "side_obj_" ++ toString p.fst, nSteps := n, abortUnsatisfied := false }))

/-- Translation of solve_small (lines 337-345): same shape as
solve_medium with the obj_ontop_obj and obj_on_support stages. -/
def solve_small (ov : Overrides)
    (ontopAssignments supportAssignments : List Assignment) :
    Except PyErr (List SolveCall) :=
  match ov.solve_steps_small with
  | none => Except.error (PyErr.keyError "solve_steps_small")
  | some n =>
    Except.ok
      ((ontopAssignments.enum.map fun p =>
          { desc := "obj_ontop_obj_" ++ toString p.fst, nSteps := n, abortUnsatisfied := false }) ++
       (supportAssignments.enum.map fun p =>
          { desc := "obj_on_support_" ++ toString p.fst, nSteps := n, abortUnsatisfied := false }))

/-- Translation of add_bottle_to_scene (lines 213-238): collect the
objects tagged Table or Surface; with no surface, warn and return None;
otherwise the next statement evaluates random.choice, and the name
random is not bound anywhere in the module, so a NameError is raised
and the function cannot complete normally. -/
def add_bottle_to_scene (objs : List Entity) : Except PyErr (Option Unit) :=
  let surfaces := objs.filter (fun o =>
    o.tags.contains Tag.Table || o.tags.contains Tag.Surface)
  if surfaces.isEmpty then Except.ok none
  else Except.error (PyErr.nameError "random")

/-- The room types offered to np.random.choice (lines 164-175). -/
def roomtypeOptions : List Tag :=
  [Tag.Bedroom, Tag.LivingRoom, Tag.Kitchen, Tag.Bathroom, Tag.DiningRoom]

/-- Modelled from the spec: np.random.choice draws from the shared
global generator, embedded as a stream of naturals; the choice is a
function of the global stream alone. -/
def npRandomChoice (globalStream : List Nat) (options : List Tag) : Tag :=
  options.getD (globalStream.headD 0 % options.length) Tag.Bedroom

/-- The restricted-roomtype choice of lines 162-176: np.random.choice on
the five room types.  The scene seed is a parameter of compose_indoors
but does not flow into this call. -/
def restrictRoomtypeChoice (scene_seed : Nat) (globalStream : List Nat) : Tag :=
  npRandomChoice globalStream roomtypeOptions

/-- The named stages that compose_indoors hands to the stage executor,
in source order. -/
inductive StageName where
  | terrain | sky_lighting | solve_rooms | solve_large | add_bottle
  | pose_cameras | animate_cameras | populate_intermediate_pholders
  | solve_medium | solve_small | populate_assets
  | room_doors | room_windows | room_stairs
  | skirting_floor | skirting_ceiling
  | room_walls | room_pillars | room_floors | room_ceilings
  | lights_off | invisible_room_ceilings | overhead_cam | hide_other_rooms
  | nature_backdrop
deriving DecidableEq, Repr

/-- Observable events of one compose_indoors execution, in order. -/
inductive Event where
  | stage (name : StageName) (useChance : Bool) (ran : Bool)
  | buildConsgraph
  | buildStages
  | checkAll (ok : Bool)
  | restrictSolvingCall
  | restrictRoomtype (choice : Option Tag)
  | constructSolver
  | computeBbox
  | spawnCameraRigs
  | chooseFollowBottle
  | chooseFollowNone
  | setVisibility
  | writeStateJson
  | readStateJson
  | topviewHide
  | setWallAlpha (alpha : Int)
  | topviewComputeBbox
  | contexScreenAccess
  | errorAbort (missing : String)
  | returnResult
deriving DecidableEq, Repr

/-- The inputs of one compose_indoors execution: the function parameters
(scene_seed, add_bottle, focus_on_bottle, overrides), the state of the
shared global random generator, the per-stage chance draws of the stage
executor, whether the catalog validation passes, the objects of the
solved state (for the bottle-surface scan), whether the fallback
object-to-follow scan finds small objects, and whether the topview
distance loop would ever see all bounding-box points in view. -/
structure RunCfg where
  scene_seed : Nat
  add_bottle : Bool
  focus_on_bottle : Bool
  overrides : Overrides
  globalStream : List Nat
  chance : StageName → Bool
  checkOk : Bool
  sceneObjs : List Entity
  smallObjsNonempty : Bool
  inviewAll : Bool

/-- Lines 138-158: the stage executor is created, the terrain and sky
lighting stages run (use_chance false), the constraint graph and the
stage catalog are built, and checks.check_all validates them.  The
check is a direct call, not a stage: a failure propagates out of
compose_indoors. -/
def preCheck (cfg : RunCfg) : List Event :=
  [Event.stage StageName.terrain false true,
   Event.stage StageName.sky_lighting false true,
   Event.buildConsgraph,
   Event.buildStages,
   Event.checkAll cfg.checkOk]

/-- Lines 160-268: restrict_solving, the optional restricted-roomtype
draw from the global generator, solver construction, room solving,
large-object solving, bounding-box computation, the bottle stage,
camera-rig spawning and camera posing.  Stage-function failures are
recorded and defaulted by the executor (spec sections 4.5 and 7), so
they do not abort the run. -/
def midEvents (cfg : RunCfg) : List Event :=
  [Event.restrictSolvingCall,
   Event.restrictRoomtype
     (if cfg.overrides.restrict_single_supported_roomtype.getD false
      then some (restrictRoomtypeChoice cfg.scene_seed cfg.globalStream) else none),
   Event.constructSolver,
   Event.stage StageName.solve_rooms false true,
   Event.stage StageName.solve_large false true,
   Event.computeBbox,
   Event.stage StageName.add_bottle false true,
   Event.spawnCameraRigs,
   Event.stage StageName.pose_cameras false true]

/-- The value the add_bottle stage hands back to the driver: the stage
function either returns None (no surface) or raises the NameError on
the unbound name random, which the executor records and defaults to
None.  Either way the driver sees no bottle. -/
def bottleResult (cfg : RunCfg) : Option Unit :=
  match add_bottle_to_scene cfg.sceneObjs with
  | Except.ok b => b
  | Except.error _ => none

/-- Lines 270-282, the object-to-follow selection at the top level of
compose_indoors (not inside a stage): when focus_on_bottle holds and a
bottle exists it is followed; otherwise, when the small-object scan is
nonempty, the expression random.choice is evaluated and the unbound
name random raises a NameError that aborts the whole run; with no
small objects the selection is None. -/
def followEvents (cfg : RunCfg) : Except String (List Event) :=
  if cfg.focus_on_bottle && (bottleResult cfg).isSome then
    Except.ok [Event.chooseFollowBottle]
  else if cfg.smallObjsNonempty then Except.error "random"
  else Except.ok [Event.chooseFollowNone]

/-- Lines 284-415: camera animation, the visibility-mode property, the
placeholder and solving and decoration stages, the single snapshot
write state.to_json (line 369), and the closing camera and backdrop
stages.  Stages without an explicit use_chance run through the chance
draw of the executor. -/
def lateEvents (cfg : RunCfg) : List Event :=
  [Event.stage StageName.animate_cameras false true,
   Event.setVisibility,
   Event.stage StageName.populate_intermediate_pholders false true,
   Event.stage StageName.solve_medium false true,
   Event.stage StageName.solve_small false true,
   Event.stage StageName.populate_assets false true,
   Event.stage StageName.room_doors false true,
   Event.stage StageName.room_windows false true,
   Event.stage StageName.room_stairs false true,
   Event.stage StageName.skirting_floor true (cfg.chance StageName.skirting_floor),
   Event.stage StageName.skirting_ceiling true (cfg.chance StageName.skirting_ceiling),
   Event.stage StageName.room_walls false true,
   Event.stage StageName.room_pillars false true,
   Event.stage StageName.room_floors false true,
   Event.stage StageName.room_ceilings false true,
   Event.writeStateJson,
   Event.stage StageName.lights_off true (cfg.chance StageName.lights_off),
   Event.stage StageName.invisible_room_ceilings false true,
   Event.stage StageName.overhead_cam false true,
   Event.stage StageName.hide_other_rooms false true,
   Event.stage StageName.nature_backdrop false true]

/-- Lines 417-447, the topview branch: it hides exterior and ceiling,
sets the wall alpha from the overrides (default 1), concatenates the
room bounding boxes and resets the camera rig, and then evaluates
bpy.contexScene (line 432), an attribute the bpy module does not have,
so an AttributeError aborts the run before the rotation overrides are
read and before the camera-distance loop; the bpy.contexScreen access
of line 443 is therefore never reached, whatever points_inview would
report. -/
def topviewEvents (cfg : RunCfg) : List Event :=
  if cfg.overrides.topview.getD false then
    [Event.topviewHide,
     Event.setWallAlpha (cfg.overrides.alpha_walls.getD 1),
     Event.topviewComputeBbox,
     Event.errorAbort "contexScene"]
  else [Event.returnResult]

/-- The event trace of one compose_indoors execution.  A failed catalog
validation and the top-level NameError and AttributeError abort the
run; stage-function failures inside run_stage default and continue. -/
def composeIndoors (cfg : RunCfg) : List Event :=
  preCheck cfg ++
  (if !cfg.checkOk then [] else
    midEvents cfg ++
    (match followEvents cfg with
     | Except.error missing => [Event.errorAbort missing]
     | Except.ok evts => evts ++ lateEvents cfg ++ topviewEvents cfg))

/-! Helper predicates on events and basic facts about the trace. -/

/-- The event is the catalog validation call. -/
def isCheckAllEvt : Event → Bool
  | Event.checkAll _ => true
  | _ => false

/-- The event is an invocation of the named stage. -/
def isStageEvt (n : StageName) : Event → Bool
  | Event.stage m _ _ => m == n
  | _ => false

/-- The event constructs the solver or invokes a solving stage. -/
def isSolvingEvt : Event → Bool
  | Event.constructSolver => true
  | Event.stage n _ _ =>
      n == StageName.solve_rooms || n == StageName.solve_large ||
      n == StageName.solve_medium || n == StageName.solve_small
  | _ => false

/-- The event is the snapshot write. -/
def isWriteEvt : Event → Bool
  | Event.writeStateJson => true
  | _ => false

/-- The event is a snapshot read. -/
def isReadEvt : Event → Bool
  | Event.readStateJson => true
  | _ => false

/-- The add_bottle stage hands no bottle back: with no surface the stage
function returns None, and with a surface it raises the NameError on
the unbound name random, which the executor defaults to None. -/
theorem bottleResult_eq_none (cfg : RunCfg) : bottleResult cfg = none := by
  unfold bottleResult add_bottle_to_scene
  by_cases h : (cfg.sceneObjs.filter (fun o =>
      o.tags.contains Tag.Table || o.tags.contains Tag.Surface)).isEmpty
  · rw [if_pos h]
  · rw [if_neg h]

/-- Because the bottle is always None, the object-to-follow selection
always takes the fallback branch: it aborts on the unbound name random
when small objects exist and selects None otherwise. -/
theorem followEvents_eq (cfg : RunCfg) :
    followEvents cfg = if cfg.smallObjsNonempty then Except.error "random"
      else Except.ok [Event.chooseFollowNone] := by
  unfold followEvents
  rw [bottleResult_eq_none]
  simp

/-- C9: the add_bottle parameter of compose_indoors has no effect: two
executions identical except for its value produce identical traces, and
the add_bottle stage is invoked with use_chance false in every
execution that passes catalog validation, regardless of the parameter. -/
theorem C9_add_bottle_parameter_inert :
    (∀ (cfg : RunCfg) (b1 b2 : Bool), composeIndoors { cfg with add_bottle := b1 }
        = composeIndoors { cfg with add_bottle := b2 }) ∧
    (∀ cfg : RunCfg, Event.stage StageName.add_bottle false true
        ∈ composeIndoors { cfg with checkOk := true }) := by
  constructor
  · intro cfg b1 b2
    rfl
  · intro cfg
    simp [composeIndoors, preCheck, midEvents]

/-- C3: in every execution of compose_indoors the catalog validation
checks.check_all runs exactly once; the only events before it are the
terrain and lighting stages and the construction of the constraint
graph and the stage catalog, so it runs immediately after the catalog
is built and before the solver is constructed or any solving stage is
invoked; and when the validation fails the run aborts with no solver
construction and no solving stage at all. -/
theorem C3_check_all_once_before_solving : ∀ cfg : RunCfg,
    (composeIndoors cfg).takeWhile (fun e => !(isCheckAllEvt e)) =
      [Event.stage StageName.terrain false true,
       Event.stage StageName.sky_lighting false true,
       Event.buildConsgraph, Event.buildStages] ∧
    (composeIndoors cfg).countP isCheckAllEvt = 1 ∧
    ((composeIndoors cfg).takeWhile (fun e => !(isCheckAllEvt e))).countP isSolvingEvt = 0 ∧
    (composeIndoors { cfg with checkOk := false }).countP isSolvingEvt = 0 := by
  intro cfg
  have hf := followEvents_eq cfg
  refine ⟨rfl, ?_, rfl, rfl⟩
  simp only [composeIndoors, preCheck, midEvents, lateEvents, topviewEvents, hf]
  cases hc : cfg.checkOk <;> cases hs : cfg.smallObjsNonempty <;>
    cases ht : cfg.overrides.topview.getD false <;> rfl

/-! Concrete configurations for the closed counterexamples. -/

/-- Overrides holding only the three required step counts. -/
def baseOverrides : Overrides :=
  { solve_steps_large := some 200, solve_steps_medium := some 150,
    solve_steps_small := some 100, abort_unsatisfied_large := none,
    abort_unsatisfied_medium := none, abort_unsatisfied_small := none,
    restrict_single_supported_roomtype := none, topview := none,
    alpha_walls := none, topview_rot_x := none, topview_rot_z := none }

/-- A concrete run configuration that completes: validation passes, no
surface objects, no small objects, no topview. -/
def demoCfg : RunCfg :=
  { scene_seed := 0, add_bottle := true, focus_on_bottle := true,
    overrides := baseOverrides, globalStream := [],
    chance := fun _ => true, checkOk := true, sceneObjs := [],
    smallObjsNonempty := false, inviewAll := true }

/-- Normalization to a completing run: validation passes, the fallback
object-to-follow scan finds nothing, and the topview branch is off. -/
def completedCfg (cfg : RunCfg) : RunCfg :=
  { cfg with
    checkOk := true
    smallObjsNonempty := false
    overrides := { cfg.overrides with topview := some false } }

/-- Shape of the trace of a completing run: validation passes, the
object-to-follow fallback selects None, and the run ends with the
normal return. -/
theorem composeIndoors_completed_eq (cfg : RunCfg) :
    composeIndoors (completedCfg cfg) =
      preCheck (completedCfg cfg) ++ (midEvents (completedCfg cfg) ++
        ([Event.chooseFollowNone] ++ (lateEvents (completedCfg cfg) ++ [Event.returnResult]))) := by
  unfold composeIndoors
  rw [followEvents_eq]
  rfl

/-- C5 counterexample: in a completing run, the pose_cameras stage (a
camera-setup step) is invoked strictly before the solve_medium stage
(an object-solving stage), which does occur in the trace, so it is
false that every camera-setup step runs after all object-solving
stages have completed. -/
theorem C5_camera_order_counterexample :
    (composeIndoors demoCfg).findIdx (isStageEvt StageName.pose_cameras)
      < (composeIndoors demoCfg).findIdx (isStageEvt StageName.solve_medium) ∧
    (composeIndoors demoCfg).findIdx (isStageEvt StageName.solve_medium)
      < (composeIndoors demoCfg).length := by
  decide

/-- C5 amended: in every completing run the driver sequences terrain,
lighting, room solving and large-object solving in that order; camera
rig spawning, camera posing and camera animation run after large-object
solving but before the medium and small object-solving stages;
decoration follows small-object solving; and the snapshot write, the
overhead camera stage and the outdoor backdrop stage come last, in that
order. -/
theorem C5_pipeline_order_amended : ∀ cfg : RunCfg,
    ((composeIndoors (completedCfg cfg)).findIdx (isStageEvt StageName.terrain)
      < (composeIndoors (completedCfg cfg)).findIdx (isStageEvt StageName.sky_lighting)) ∧
    ((composeIndoors (completedCfg cfg)).findIdx (isStageEvt StageName.sky_lighting)
      < (composeIndoors (completedCfg cfg)).findIdx (isStageEvt StageName.solve_rooms)) ∧
    ((composeIndoors (completedCfg cfg)).findIdx (isStageEvt StageName.solve_rooms)
      < (composeIndoors (completedCfg cfg)).findIdx (isStageEvt StageName.solve_large)) ∧
    ((composeIndoors (completedCfg cfg)).findIdx (isStageEvt StageName.solve_large)
      < (composeIndoors (completedCfg cfg)).findIdx (fun e => e == Event.spawnCameraRigs)) ∧
    ((composeIndoors (completedCfg cfg)).findIdx (fun e => e == Event.spawnCameraRigs)
      < (composeIndoors (completedCfg cfg)).findIdx (isStageEvt StageName.pose_cameras)) ∧
    ((composeIndoors (completedCfg cfg)).findIdx (isStageEvt StageName.pose_cameras)
      < (composeIndoors (completedCfg cfg)).findIdx (isStageEvt StageName.animate_cameras)) ∧
    ((composeIndoors (completedCfg cfg)).findIdx (isStageEvt StageName.animate_cameras)
      < (composeIndoors (completedCfg cfg)).findIdx (isStageEvt StageName.solve_medium)) ∧
    ((composeIndoors (completedCfg cfg)).findIdx (isStageEvt StageName.solve_medium)
      < (composeIndoors (completedCfg cfg)).findIdx (isStageEvt StageName.solve_small)) ∧
    ((composeIndoors (completedCfg cfg)).findIdx (isStageEvt StageName.solve_small)
      < (composeIndoors (completedCfg cfg)).findIdx (isStageEvt StageName.room_doors)) ∧
    ((composeIndoors (completedCfg cfg)).findIdx (isStageEvt StageName.room_doors)
      < (composeIndoors (completedCfg cfg)).findIdx (isStageEvt StageName.room_ceilings)) ∧
    ((composeIndoors (completedCfg cfg)).findIdx (isStageEvt StageName.room_ceilings)
      < (composeIndoors (completedCfg cfg)).findIdx isWriteEvt) ∧
    ((composeIndoors (completedCfg cfg)).findIdx isWriteEvt
      < (composeIndoors (completedCfg cfg)).findIdx (isStageEvt StageName.overhead_cam)) ∧
    ((composeIndoors (completedCfg cfg)).findIdx (isStageEvt StageName.overhead_cam)
      < (composeIndoors (completedCfg cfg)).findIdx (isStageEvt StageName.nature_backdrop)) ∧
    ((composeIndoors (completedCfg cfg)).findIdx (isStageEvt StageName.nature_backdrop)
      < (composeIndoors (completedCfg cfg)).length) := by
  intro cfg
  rw [composeIndoors_completed_eq]
  show (0:Nat) < 1 ∧ (1:Nat) < 8 ∧ (8:Nat) < 9 ∧ (9:Nat) < 12 ∧ (12:Nat) < 13 ∧
    (13:Nat) < 15 ∧ (15:Nat) < 18 ∧ (18:Nat) < 19 ∧ (19:Nat) < 21 ∧ (21:Nat) < 29 ∧
    (29:Nat) < 30 ∧ (30:Nat) < 33 ∧ (33:Nat) < 35 ∧ (35:Nat) < 37
  decide

/-- A run in which the fallback object-to-follow scan finds small
objects, so the top-level random.choice aborts the run. -/
def abortedCfg : RunCfg := { demoCfg with smallObjsNonempty := true }

/-- C8 counterexample: a run that hits the unbound name random in the
object-to-follow selection aborts before state.to_json, so its trace
contains no snapshot write at all; hence it is false that the snapshot
is written exactly once in every run of compose_indoors. -/
theorem C8_snapshot_write_counterexample :
    (composeIndoors abortedCfg).countP isWriteEvt = 0 ∧
    (composeIndoors abortedCfg).getLast? = some (Event.errorAbort "random") := by
  decide

/-- Normalization to a run that passes the object-to-follow selection:
validation passes and the fallback small-object scan is empty.  The
topview branch is left as configured: such a run reaches state.to_json
whether or not it later aborts in the topview branch. -/
def pastFollowCfg (cfg : RunCfg) : RunCfg :=
  { cfg with
    checkOk := true
    smallObjsNonempty := false }

/-- Shape of the trace of a run that passes the object-to-follow
selection: it proceeds through the decoration stages and the snapshot
write into the topview branch or the normal return. -/
theorem composeIndoors_pastFollow_eq (cfg : RunCfg) :
    composeIndoors (pastFollowCfg cfg) =
      preCheck (pastFollowCfg cfg) ++ (midEvents (pastFollowCfg cfg) ++
        ([Event.chooseFollowNone] ++ (lateEvents (pastFollowCfg cfg) ++
          topviewEvents (pastFollowCfg cfg)))) := by
  unfold composeIndoors
  rw [followEvents_eq]
  rfl

/-- C8 amended: every run that passes the object-to-follow selection
writes the snapshot exactly once, after the small-object solving stage
and after the last decoration stage (room_ceilings) and before the
overhead-camera and outdoor-backdrop stages — including runs that enter
the topview branch, which write once and then abort at bpy.contexScene;
runs that abort at the unbound name random in the object-to-follow
selection terminate before the write and write nothing; and no run
ever reads the snapshot back. -/
theorem C8_snapshot_write_amended :
    (∀ cfg : RunCfg, (composeIndoors (pastFollowCfg cfg)).countP isWriteEvt = 1) ∧
    (∀ cfg : RunCfg,
      (composeIndoors (pastFollowCfg cfg)).findIdx (isStageEvt StageName.solve_small)
        < (composeIndoors (pastFollowCfg cfg)).findIdx isWriteEvt ∧
      (composeIndoors (pastFollowCfg cfg)).findIdx (isStageEvt StageName.room_ceilings)
        < (composeIndoors (pastFollowCfg cfg)).findIdx isWriteEvt ∧
      (composeIndoors (pastFollowCfg cfg)).findIdx isWriteEvt
        < (composeIndoors (pastFollowCfg cfg)).findIdx (isStageEvt StageName.overhead_cam) ∧
      (composeIndoors (pastFollowCfg cfg)).findIdx isWriteEvt
        < (composeIndoors (pastFollowCfg cfg)).findIdx (isStageEvt StageName.nature_backdrop)) ∧
    (∀ cfg : RunCfg,
      (composeIndoors { cfg with checkOk := true, smallObjsNonempty := true }).countP
        isWriteEvt = 0) ∧
    (∀ cfg : RunCfg, (composeIndoors cfg).countP isReadEvt = 0) := by
  refine ⟨?_, ?_, ?_, ?_⟩
  · intro cfg
    rw [composeIndoors_pastFollow_eq]
    simp only [topviewEvents]
    cases ht : (pastFollowCfg cfg).overrides.topview.getD false <;> rfl
  · intro cfg
    rw [composeIndoors_pastFollow_eq]
    show (19:Nat) < 30 ∧ (29:Nat) < 30 ∧ (30:Nat) < 33 ∧ (30:Nat) < 35
    decide
  · intro cfg
    have hf := followEvents_eq { cfg with checkOk := true, smallObjsNonempty := true }
    simp only [composeIndoors, hf]
    rfl
  · intro cfg
    have hf := followEvents_eq cfg
    simp only [composeIndoors, preCheck, midEvents, lateEvents, topviewEvents, hf]
    cases hc : cfg.checkOk <;> cases hs : cfg.smallObjsNonempty <;>
      cases ht : cfg.overrides.topview.getD false <;> rfl

/-- The roomtype recorded by the restricted-roomtype event of a trace. -/
def chosenRoomtype (tr : List Event) : Option Tag :=
  tr.findSome? fun e =>
    match e with
    | Event.restrictRoomtype c => c
    | _ => none

/-- A run with the roomtype restriction enabled and global generator
state [0]. -/
def restrictCfgA : RunCfg :=
  { demoCfg with
    overrides := { baseOverrides with restrict_single_supported_roomtype := some true }
    globalStream := [0] }

/-- The same run with global generator state [1]. -/
def restrictCfgB : RunCfg :=
  { demoCfg with
    overrides := { baseOverrides with restrict_single_supported_roomtype := some true }
    globalStream := [1] }

/-- C6 counterexample: two runs of compose_indoors with the same scene
seed and the roomtype restriction enabled choose different restricted
room types when the prior state of the shared global generator differs,
so the choice is not drawn from a stage-local generator seeded by the
scene seed and is not independent of what ran before. -/
theorem C6_global_rng_counterexample :
    restrictCfgA.scene_seed = restrictCfgB.scene_seed ∧
    chosenRoomtype (composeIndoors restrictCfgA) = some Tag.Bedroom ∧
    chosenRoomtype (composeIndoors restrictCfgB) = some Tag.LivingRoom := by
  decide

/-- C6 amended: the restricted-roomtype choice is drawn from the shared
global generator: it is a function of the global generator state alone
and ignores the scene seed entirely, so the chosen type is unchanged
under any change of the scene seed. -/
theorem C6_global_rng_amended : ∀ (cfg : RunCfg) (s1 s2 : Nat),
    chosenRoomtype (composeIndoors { cfg with scene_seed := s1 })
      = chosenRoomtype (composeIndoors { cfg with scene_seed := s2 }) := by
  intro cfg s1 s2
  rfl

/-- Overrides with the medium-granularity abort flag configured. -/
def ovAbortMedium : Overrides := { baseOverrides with abort_unsatisfied_medium := some true }

/-- C4 counterexample: with abort_unsatisfied_medium configured true in
the overrides, the medium-granularity driver still passes
abort_unsatisfied false to solve_objects (the source calls it
positionally without the flag), so the driver does not pass a
configured abort-on-unsatisfied flag for each granularity level. -/
theorem C4_abort_flag_counterexample :
    ovAbortMedium.abort_unsatisfied_medium = some true ∧
    solve_medium ovAbortMedium [[]] [] [] =
      Except.ok [{ desc := "on_wall_0", nSteps := 150, abortUnsatisfied := false }] :=
  ⟨rfl, rfl⟩

/-- Unfolding of the solve_large loop when the step count is present. -/
theorem solveLargeLoop_eq (ov : Overrides) (n : Nat) (h : ov.solve_steps_large = some n) :
    ∀ (i : Nat) (assignments : List Assignment),
      solveLargeLoop ov i assignments =
        Except.ok ((assignments.enumFrom i).map fun p =>
          { desc := "on_floor_" ++ toString p.fst,
            nSteps := n,
            abortUnsatisfied := ov.abort_unsatisfied_large.getD false }) := by
  intro i assignments
  induction assignments generalizing i with
  | nil => rfl
  | cons a rest ih =>
    rw [solveLargeLoop, h, ih]
    rfl

/-- C4 amended: only the large-granularity stage passes a configured
abort-on-unsatisfied flag to solve_objects (abort_unsatisfied_large
read with default false); the medium and small granularity stages
always pass the solver default false, whatever the overrides hold. -/
theorem C4_abort_flags_amended :
    (∀ (ov : Overrides) (n : Nat) (assignments : List Assignment),
      solve_large { ov with solve_steps_large := some n } assignments =
        Except.ok (assignments.enum.map fun p =>
          { desc := "on_floor_" ++ toString p.fst,
            nSteps := n,
            abortUnsatisfied := ov.abort_unsatisfied_large.getD false })) ∧
    (∀ (ov : Overrides) (n : Nat) (w c s : List Assignment),
      solve_medium { ov with solve_steps_medium := some n } w c s =
        Except.ok
          ((w.enum.map fun p =>
              { desc := "on_wall_" ++ toString p.fst, nSteps := n, abortUnsatisfied := false }) ++
           (c.enum.map fun p =>
              { desc := "on_ceiling_" ++ toString p.fst, nSteps := n, abortUnsatisfied := false }) ++
           (s.enum.map fun p =>
              { desc := "side_obj_" ++ toString p.fst, nSteps := n, abortUnsatisfied := false }))) ∧
    (∀ (ov : Overrides) (n : Nat) (a b : List Assignment),
      solve_small { ov with solve_steps_small := some n } a b =
        Except.ok
          ((a.enum.map fun p =>
              { desc := "obj_ontop_obj_" ++ toString p.fst, nSteps := n, abortUnsatisfied := false }) ++
           (b.enum.map fun p =>
              { desc := "obj_on_support_" ++ toString p.fst, nSteps := n, abortUnsatisfied := false }))) := by
  refine ⟨?_, ?_, ?_⟩
  · intro ov n assignments
    exact solveLargeLoop_eq { ov with solve_steps_large := some n } n rfl 0 assignments
  · intro ov n w c s
    rfl
  · intro ov n a b
    rfl

/-- Overrides lacking the solve_steps_large key. -/
def ovNoLarge : Overrides := { baseOverrides with solve_steps_large := none }

/-- C10 counterexample: with solve_steps_large absent from the
overrides, solve_large completes normally when the assignment
enumeration is empty, because the subscript expression sits inside the
loop body; so it is false that every run of a solve stage function with
its step-count key absent raises a KeyError. -/
theorem C10_solve_steps_counterexample :
    ovNoLarge.solve_steps_large = none ∧
    solve_large ovNoLarge [] = Except.ok [] :=
  ⟨rfl, rfl⟩

/-- The six optional flag keys removed from the mapping. -/
def flagsOmitted (ov : Overrides) : Overrides :=
  { ov with
    abort_unsatisfied_large := none
    restrict_single_supported_roomtype := none
    topview := none
    alpha_walls := none
    topview_rot_x := none
    topview_rot_z := none }

/-- The six optional flag keys set to their documented defaults. -/
def flagsExplicitDefaults (ov : Overrides) : Overrides :=
  { ov with
    abort_unsatisfied_large := some false
    restrict_single_supported_roomtype := some false
    topview := some false
    alpha_walls := some 1
    topview_rot_x := some 0
    topview_rot_z := some 0 }

/-- Congruence for the solve_large loop over overrides that agree on
the two fields it reads. -/
theorem solveLargeLoop_congr (ov1 ov2 : Overrides)
    (hsteps : ov1.solve_steps_large = ov2.solve_steps_large)
    (habort : ov1.abort_unsatisfied_large.getD false = ov2.abort_unsatisfied_large.getD false) :
    ∀ (i : Nat) (assignments : List Assignment),
      solveLargeLoop ov1 i assignments = solveLargeLoop ov2 i assignments := by
  intro i assignments
  induction assignments generalizing i with
  | nil => rfl
  | cons a rest ih =>
    rw [solveLargeLoop, solveLargeLoop, ← hsteps]
    cases ov1.solve_steps_large with
    | none => rfl
    | some n => rw [ih, habort]

/-- C10 amended: the keys solve_steps_medium and solve_steps_small are
required unconditionally: when absent, the stage function raises a
KeyError on entry.  The key solve_steps_large is required only when at
least one assignment is enumerated: with assignments the function
raises a KeyError, with none it completes normally.  The six flag keys
(abort_unsatisfied_large, restrict_single_supported_roomtype, topview,
alpha_walls, topview_rot_x, topview_rot_z) are read with defaults:
omitting them is indistinguishable from passing the defaults and never
raises. -/
theorem C10_override_keys_amended :
    (∀ (ov : Overrides) (w c s : List Assignment),
      solve_medium { ov with solve_steps_medium := none } w c s
        = Except.error (PyErr.keyError "solve_steps_medium")) ∧
    (∀ (ov : Overrides) (a b : List Assignment),
      solve_small { ov with solve_steps_small := none } a b
        = Except.error (PyErr.keyError "solve_steps_small")) ∧
    (∀ (ov : Overrides) (a : Assignment) (rest : List Assignment),
      solve_large { ov with solve_steps_large := none } (a :: rest)
        = Except.error (PyErr.keyError "solve_steps_large")) ∧
    (∀ ov : Overrides, solve_large { ov with solve_steps_large := none } []
        = Except.ok []) ∧
    (∀ cfg : RunCfg,
      composeIndoors { cfg with overrides := flagsOmitted cfg.overrides }
        = composeIndoors { cfg with overrides := flagsExplicitDefaults cfg.overrides }) ∧
    (∀ (ov : Overrides) (assignments : List Assignment),
      solve_large { ov with abort_unsatisfied_large := none } assignments
        = solve_large { ov with abort_unsatisfied_large := some false } assignments) := by
  refine ⟨fun ov w c s => rfl, fun ov a b => rfl, fun ov a rest => rfl, fun ov => rfl,
    fun cfg => rfl, ?_⟩
  intro ov assignments
  exact solveLargeLoop_congr { ov with abort_unsatisfied_large := none }
    { ov with abort_unsatisfied_large := some false } rfl rfl 0 assignments

/-- A run with the topview branch enabled and every bounding-box point
in view. -/
def topviewCfg : RunCfg :=
  { demoCfg with
    inviewAll := true
    overrides := { baseOverrides with topview := some true } }

/-- C7 counterexample: even with every bounding-box point in view, the
topview branch aborts at the unbound attribute bpy.contexScene, which
is evaluated unconditionally before the camera-distance loop, and the
bpy.contexScreen access is never reached; so it is false that the
branch reaches both unbound attributes once all points are in view. -/
theorem C7_topview_counterexample :
    topviewCfg.inviewAll = true ∧
    (composeIndoors topviewCfg).getLast? = some (Event.errorAbort "contexScene") ∧
    (composeIndoors topviewCfg).countP (fun e => e == Event.contexScreenAccess) = 0 := by
  decide

/-- C7 amended: add_bottle_to_scene reaches the unbound name random and
cannot complete normally whenever it finds at least one surface; the
fallback object-to-follow selection reaches random.choice and aborts
the run whenever the small-object scan is nonempty; and the topview
branch reaches the unbound attribute bpy.contexScene unconditionally,
before the camera-distance loop, and aborts there, so the
bpy.contexScreen access of the loop body is never reached in any run. -/
theorem C7_undefined_names_amended :
    (∀ (tags : List Tag) (rels : List RelInstance) (rest : List Entity),
      add_bottle_to_scene ({ tags := Tag.Table :: tags, rels := rels } :: rest)
        = Except.error (PyErr.nameError "random")) ∧
    (∀ cfg : RunCfg,
      (composeIndoors { cfg with checkOk := true, smallObjsNonempty := true }).getLast?
        = some (Event.errorAbort "random")) ∧
    (∀ cfg : RunCfg,
      (composeIndoors { cfg with
          checkOk := true
          smallObjsNonempty := false
          overrides := { cfg.overrides with topview := some true } }).getLast?
        = some (Event.errorAbort "contexScene")) ∧
    (∀ cfg : RunCfg,
      (composeIndoors cfg).countP (fun e => e == Event.contexScreenAccess) = 0) := by
  refine ⟨?_, ?_, ?_, ?_⟩
  · intro tags rels rest
    simp [add_bottle_to_scene]
  · intro cfg
    have hf := followEvents_eq { cfg with checkOk := true, smallObjsNonempty := true }
    simp only [composeIndoors, hf]
    rfl
  · intro cfg
    have hf := followEvents_eq { cfg with
      checkOk := true
      smallObjsNonempty := false
      overrides := { cfg.overrides with topview := some true } }
    simp only [composeIndoors, hf]
    rfl
  · intro cfg
    have hf := followEvents_eq cfg
    simp only [composeIndoors, preCheck, midEvents, lateEvents, topviewEvents, hf]
    cases hc : cfg.checkOk <;> cases hs : cfg.smallObjsNonempty <;>
      cases ht : cfg.overrides.topview.getD false <;> rfl

end Infinigen
